import Mathlib

set_option maxHeartbeats 1000000

/-!
A shallow embedding of the `daemon` package's Linux backends
(`systemVRecord` in the legacy init-script file, `systemDRecord` in
`daemon_linux_systemd.go`, and `newDaemon` in `daemon_linux.go`).

External OS interactions (file stats, file creation, chmod, symlinks,
file removal, and invocations of the native `service` / `systemctl`
tools) are modelled by an explicit environment `Env` that fixes the
outcome of every such interaction, and every operation additionally
returns the ordered list of OS interactions it attempted (`Effect`),
so that "performs no mutation" and "attempts step X" are provable
statements about the code.
-/

/-- Errors of the daemon package.  The named error values
(`ErrAlreadyInstalled`, `ErrNotInstalled`, `ErrAlreadyRunning`,
`ErrAlreadyStopped`, and the privilege error) are declared in the
repository outside the provided sources.  Modelled from the spec:
the privilege guard fails with a PermissionDenied-class error
(`rootPrivileges`); `osFailure` stands for an opaque underlying
I/O or native-command error, tagged with the failing step. -/
inductive Err where
  | rootPrivileges
  | alreadyInstalled
  | notInstalled
  | alreadyRunning
  | alreadyStopped
  | osFailure (op : String)
  deriving Repr, DecidableEq

/-- An attempted OS interaction, in the order the Go code performs them:
`os.Stat`, `os.Create`, `os.Chmod`, `os.Symlink`, `os.Remove`,
`exec.Command(...).Run()` and `exec.Command(...).Output()`. -/
inductive Effect where
  | statFile (path : String)
  | createFile (path : String)
  | chmodFile (path : String) (mode : Nat)
  | symlinkFile (target : String) (link : String)
  | removeFile (path : String)
  | runCmd (cmd : List String)
  | outputCmd (cmd : List String)
  deriving Repr, DecidableEq

/-- Is the effect a mutation of OS state?  `os.Stat` only reads;
every other modelled interaction creates, alters or deletes OS state
or invokes a native command. -/
def Effect.isMutation : Effect → Bool
  | .statFile _ => false
  | _ => true

/-- The outcomes the OS supplies for each interaction the code may attempt.
`privileged` is the result of `checkPrivileges` (modelled from the spec:
the privilege guard is a pure precondition check that does not mutate OS
state and denies with a PermissionDenied-class error).  `fileExists p`
is whether `os.Stat p` succeeds; `cmdOutput c` is the byte output and
success flag of `exec.Command(c).Output()`; `runOk c` is whether
`exec.Command(c).Run()` succeeds; `execPathRes` is the result of the
repository's `executablePath` helper (declared outside the provided
sources, an opaque capability per the spec); `templOk` is whether
`templ.Execute` on the open definition file succeeds (parsing of the
constant template itself always succeeds). -/
structure Env where
  privileged : Bool
  fileExists : String → Bool
  createOk : String → Bool
  chmodOk : String → Bool
  symlinkOk : String → Bool
  removeOk : String → Bool
  runOk : List String → Bool
  cmdOutput : List String → String × Bool
  execPathRes : Option String
  templOk : Bool

/-- Result of one backend operation: the human-readable message, the
structured error (`none` = success), and the ordered trace of attempted
OS interactions. -/
structure OpResult where
  msg : String
  err : Option Err
  trace : List Effect
  deriving Repr, DecidableEq

/-- Modelled from the spec: the repository's shared failure marker
(declared outside the provided sources) appended to an action message;
the spec only requires it to mark failure. -/
def failed : String := "\t\t\t\t\t[FAILED]"

/-- Modelled from the spec: the repository's shared success marker
(declared outside the provided sources) appended to an action message;
the spec only requires it to mark success. -/
def success : String := "\t\t\t\t\t[OK]"

/-- Is `p` a prefix of `s` (character lists)? -/
def chStartsWith : List Char → List Char → Bool
  | [], _ => true
  | _ :: _, [] => false
  | p :: ps, c :: cs => p == c && chStartsWith ps cs

/-- Does `pat` occur as a contiguous substring of `s`?  This is
`regexp.MatchString` for a pattern consisting of literal characters
(as in `"Active: active"` and `"running"`; the Go code also matches the
service name as a pattern, which for metacharacter-free names is the
same as literal containment, and is modelled as such). -/
def chMatch (pat : List Char) : List Char → Bool
  | [] => chStartsWith pat []
  | c :: cs => chStartsWith pat (c :: cs) || chMatch pat cs

/-- `regexp.MustCompile(lit + "([0-9]+)").FindStringSubmatch`: the digit
group of the leftmost occurrence of the literal `lit` followed by at
least one digit, the digit run taken greedily. -/
def chFindDigits (lit : List Char) : List Char → Option (List Char)
  | [] => none
  | c :: cs =>
    if chStartsWith lit (c :: cs) then
      let d := ((c :: cs).drop lit.length).takeWhile (fun ch => ch.isDigit)
      if d.isEmpty then chFindDigits lit cs else some d
    else chFindDigits lit cs

/-- The systemd backend's status-text parser (`systemDRecord.checkRunning`,
`daemon_linux_systemd.go` lines 40-54), applied to the output and success
flag of `systemctl status <name>.service`.  It is a total function: any
unmatched output is reported as stopped, never as an error. -/
def systemDStatusText (name : String) (out : String × Bool) : String × Bool :=
  if out.2 then
    if chMatch "Active: active".data out.1.data then
      match chFindDigits "Main PID: ".data out.1.data with
      | some d => ("Service " ++ name ++ " (pid  " ++ String.mk d ++ ") is running...", true)
      | none => ("Service " ++ name ++ " is running...", true)
    else ("Service " ++ name ++ " is stopped", false)
  else ("Service " ++ name ++ " is stopped", false)

/-- The init-script backend's status-text parser
(`systemVRecord.checkRunning`, lines 40-56), applied to the output and
success flag of `service <name> status`.  Total: unmatched output is
reported as stopped, never as an error. -/
def systemVStatusText (name : String) (out : String × Bool) : String × Bool :=
  if out.2 then
    if chMatch "running".data out.1.data then
      if chMatch name.data out.1.data then
        match chFindDigits "pid  ".data out.1.data with
        | some d => ("Service " ++ name ++ " (pid  " ++ String.mk d ++ ") is running...", true)
        | none => ("Service " ++ name ++ " is running...", true)
      else ("Service " ++ name ++ " is stopped", false)
    else ("Service " ++ name ++ " is stopped", false)
  else ("Service " ++ name ++ " is stopped", false)

/-- The legacy (SysV) backend record (fields of `systemVRecord`). -/
structure systemVRecord where
  name : String
  port : String
  version : String
  description : String
  dependencies : List String

/-- `systemVRecord.servicePath` (line 25-27). -/
def systemVRecord.servicePath (r : systemVRecord) : String :=
  "/etc/init.d/" ++ r.name

/-- `systemVRecord.isInstalled` (lines 30-37): `os.Stat` on the service
path succeeds. -/
def systemVRecord.isInstalled (r : systemVRecord) (env : Env) : Bool :=
  env.fileExists r.servicePath

/-- `systemVRecord.checkRunning` (lines 40-56): run
`service <name> status` and parse its output; returns the parse result
together with the attempted command invocation. -/
def systemVRecord.checkRunning (r : systemVRecord) (env : Env) :
    (String × Bool) × List Effect :=
  let cmd := ["service", r.name, "status"]
  (systemVStatusText r.name (env.cmdOutput cmd), [Effect.outputCmd cmd])

/-- `systemVRecord.Install` (lines 59-113): privilege check, installed
check, `os.Create`, `executablePath`, template execute, `os.Chmod 0755`,
then the two runlevel-symlink loops whose per-link outcomes are ignored
(`continue` on error), and whose attempts are recorded unconditionally. -/
def systemVRecord.Install (r : systemVRecord) (_args : List String) (env : Env) : OpResult :=
  let installAction := "Install " ++ r.description ++ ":"
  if !env.privileged then
    ⟨installAction ++ failed, some Err.rootPrivileges, []⟩
  else
    let srvPath := r.servicePath
    if env.fileExists srvPath then
      ⟨installAction ++ failed, some Err.alreadyInstalled, [Effect.statFile srvPath]⟩
    else if !env.createOk srvPath then
      ⟨installAction ++ failed, some (Err.osFailure "create"),
        [Effect.statFile srvPath, Effect.createFile srvPath]⟩
    else
      match env.execPathRes with
      | none =>
        ⟨installAction ++ failed, some (Err.osFailure "executablePath"),
          [Effect.statFile srvPath, Effect.createFile srvPath]⟩
      | some _execPatch =>
        if !env.templOk then
          ⟨installAction ++ failed, some (Err.osFailure "templateExecute"),
            [Effect.statFile srvPath, Effect.createFile srvPath]⟩
        else if !env.chmodOk srvPath then
          ⟨installAction ++ failed, some (Err.osFailure "chmod"),
            [Effect.statFile srvPath, Effect.createFile srvPath,
             Effect.chmodFile srvPath 0o755]⟩
        else
          ⟨installAction ++ success, none,
            [Effect.statFile srvPath, Effect.createFile srvPath,
             Effect.chmodFile srvPath 0o755]
            ++ ["2", "3", "4", "5"].map
                (fun i => Effect.symlinkFile srvPath ("/etc/rc" ++ i ++ ".d/S87" ++ r.name))
            ++ ["0", "1", "6"].map
                (fun i => Effect.symlinkFile srvPath ("/etc/rc" ++ i ++ ".d/K17" ++ r.name))⟩

/-- `systemVRecord.Remove` (lines 116-143): privilege check, installed
check, `os.Remove` of the definition file (returning its error on
failure), then the two runlevel-symlink removal loops whose per-link
outcomes are ignored (`continue` on error). -/
def systemVRecord.Remove (r : systemVRecord) (env : Env) : OpResult :=
  let removeAction := "Removing " ++ r.description ++ ":"
  if !env.privileged then
    ⟨removeAction ++ failed, some Err.rootPrivileges, []⟩
  else if !(r.isInstalled env) then
    ⟨removeAction ++ failed, some Err.notInstalled, [Effect.statFile r.servicePath]⟩
  else if !env.removeOk r.servicePath then
    ⟨removeAction ++ failed, some (Err.osFailure "remove"),
      [Effect.statFile r.servicePath, Effect.removeFile r.servicePath]⟩
  else
    ⟨removeAction ++ success, none,
      [Effect.statFile r.servicePath, Effect.removeFile r.servicePath]
      ++ ["2", "3", "4", "5"].map
          (fun i => Effect.removeFile ("/etc/rc" ++ i ++ ".d/S87" ++ r.name))
      ++ ["0", "1", "6"].map
          (fun i => Effect.removeFile ("/etc/rc" ++ i ++ ".d/K17" ++ r.name))⟩

/-- `systemVRecord.Start` (lines 146-166). -/
def systemVRecord.Start (r : systemVRecord) (env : Env) : OpResult :=
  let startAction := "Starting " ++ r.description ++ ":"
  if !env.privileged then
    ⟨startAction ++ failed, some Err.rootPrivileges, []⟩
  else if !(r.isInstalled env) then
    ⟨startAction ++ failed, some Err.notInstalled, [Effect.statFile r.servicePath]⟩
  else
    let chk := r.checkRunning env
    if chk.1.2 then
      ⟨startAction ++ failed, some Err.alreadyRunning, Effect.statFile r.servicePath :: chk.2⟩
    else if !env.runOk ["service", r.name, "start"] then
      ⟨startAction ++ failed, some (Err.osFailure "start"),
        Effect.statFile r.servicePath :: chk.2 ++ [Effect.runCmd ["service", r.name, "start"]]⟩
    else
      ⟨startAction ++ success, none,
        Effect.statFile r.servicePath :: chk.2 ++ [Effect.runCmd ["service", r.name, "start"]]⟩

/-- `systemVRecord.Stop` (lines 169-189). -/
def systemVRecord.Stop (r : systemVRecord) (env : Env) : OpResult :=
  let stopAction := "Stopping " ++ r.description ++ ":"
  if !env.privileged then
    ⟨stopAction ++ failed, some Err.rootPrivileges, []⟩
  else if !(r.isInstalled env) then
    ⟨stopAction ++ failed, some Err.notInstalled, [Effect.statFile r.servicePath]⟩
  else
    let chk := r.checkRunning env
    if !chk.1.2 then
      ⟨stopAction ++ failed, some Err.alreadyStopped, Effect.statFile r.servicePath :: chk.2⟩
    else if !env.runOk ["service", r.name, "stop"] then
      ⟨stopAction ++ failed, some (Err.osFailure "stop"),
        Effect.statFile r.servicePath :: chk.2 ++ [Effect.runCmd ["service", r.name, "stop"]]⟩
    else
      ⟨stopAction ++ success, none,
        Effect.statFile r.servicePath :: chk.2 ++ [Effect.runCmd ["service", r.name, "stop"]]⟩

/-- `systemVRecord.Status` (lines 192-205): on privilege denial the
message is the empty string; when not installed it is
"Status could not defined"; otherwise the `checkRunning` description
with a `nil` error even when stopped. -/
def systemVRecord.Status (r : systemVRecord) (env : Env) : OpResult :=
  if !env.privileged then
    ⟨"", some Err.rootPrivileges, []⟩
  else if !(r.isInstalled env) then
    ⟨"Status could not defined", some Err.notInstalled, [Effect.statFile r.servicePath]⟩
  else
    let chk := r.checkRunning env
    ⟨chk.1.1, none, Effect.statFile r.servicePath :: chk.2⟩

/-- `systemVRecord.ExecPath` (lines 208-224): the installed check is
against the record's own service path; an empty `serviceName` argument
is replaced by the record's own name before invoking
`service <name> execpath`, whose raw output is returned. -/
def systemVRecord.ExecPath (r : systemVRecord) (serviceName : String) (env : Env) : OpResult :=
  if !env.privileged then
    ⟨"", some Err.rootPrivileges, []⟩
  else if !(r.isInstalled env) then
    ⟨"", some Err.notInstalled, [Effect.statFile r.servicePath]⟩
  else
    let sn := if serviceName = "" then r.name else serviceName
    let cmd := ["service", sn, "execpath"]
    let out := env.cmdOutput cmd
    ⟨out.1, if out.2 then none else some (Err.osFailure "execpath"),
      [Effect.statFile r.servicePath, Effect.outputCmd cmd]⟩

/-- `systemVRecord.Restart` (lines 227-243): no running-state check. -/
def systemVRecord.Restart (r : systemVRecord) (env : Env) : OpResult :=
  let startAction := "Restarting " ++ r.description ++ ":"
  if !env.privileged then
    ⟨startAction ++ failed, some Err.rootPrivileges, []⟩
  else if !(r.isInstalled env) then
    ⟨startAction ++ failed, some Err.notInstalled, [Effect.statFile r.servicePath]⟩
  else if !env.runOk ["service", r.name, "restart"] then
    ⟨startAction ++ failed, some (Err.osFailure "restart"),
      [Effect.statFile r.servicePath, Effect.runCmd ["service", r.name, "restart"]]⟩
  else
    ⟨startAction ++ success, none,
      [Effect.statFile r.servicePath, Effect.runCmd ["service", r.name, "restart"]]⟩

/-- The systemd backend record (fields of `systemDRecord`). -/
structure systemDRecord where
  name : String
  port : String
  version : String
  description : String
  dependencies : List String

/-- `systemDRecord.servicePath` (`daemon_linux_systemd.go` lines 25-27). -/
def systemDRecord.servicePath (r : systemDRecord) : String :=
  "/etc/systemd/system/" ++ r.name ++ ".service"

/-- `systemDRecord.isInstalled` (lines 30-37). -/
def systemDRecord.isInstalled (r : systemDRecord) (env : Env) : Bool :=
  env.fileExists r.servicePath

/-- `systemDRecord.checkRunning` (lines 40-54): run
`systemctl status <name>.service` and parse its output. -/
def systemDRecord.checkRunning (r : systemDRecord) (env : Env) :
    (String × Bool) × List Effect :=
  let cmd := ["systemctl", "status", r.name ++ ".service"]
  (systemDStatusText r.name (env.cmdOutput cmd), [Effect.outputCmd cmd])

/-- `systemDRecord.Install` (lines 57-112): privilege check, installed
check, `os.Create`, `executablePath`, template execute, then
`systemctl daemon-reload` and `systemctl enable <name>.service`, each
aborting on failure. -/
def systemDRecord.Install (r : systemDRecord) (_args : List String) (env : Env) : OpResult :=
  let installAction := "Install " ++ r.description ++ ":"
  if !env.privileged then
    ⟨installAction ++ failed, some Err.rootPrivileges, []⟩
  else
    let srvPath := r.servicePath
    if env.fileExists srvPath then
      ⟨installAction ++ failed, some Err.alreadyInstalled, [Effect.statFile srvPath]⟩
    else if !env.createOk srvPath then
      ⟨installAction ++ failed, some (Err.osFailure "create"),
        [Effect.statFile srvPath, Effect.createFile srvPath]⟩
    else
      match env.execPathRes with
      | none =>
        ⟨installAction ++ failed, some (Err.osFailure "executablePath"),
          [Effect.statFile srvPath, Effect.createFile srvPath]⟩
      | some _execPatch =>
        if !env.templOk then
          ⟨installAction ++ failed, some (Err.osFailure "templateExecute"),
            [Effect.statFile srvPath, Effect.createFile srvPath]⟩
        else if !env.runOk ["systemctl", "daemon-reload"] then
          ⟨installAction ++ failed, some (Err.osFailure "daemon-reload"),
            [Effect.statFile srvPath, Effect.createFile srvPath,
             Effect.runCmd ["systemctl", "daemon-reload"]]⟩
        else if !env.runOk ["systemctl", "enable", r.name ++ ".service"] then
          ⟨installAction ++ failed, some (Err.osFailure "enable"),
            [Effect.statFile srvPath, Effect.createFile srvPath,
             Effect.runCmd ["systemctl", "daemon-reload"],
             Effect.runCmd ["systemctl", "enable", r.name ++ ".service"]]⟩
        else
          ⟨installAction ++ success, none,
            [Effect.statFile srvPath, Effect.createFile srvPath,
             Effect.runCmd ["systemctl", "daemon-reload"],
             Effect.runCmd ["systemctl", "enable", r.name ++ ".service"]]⟩

/-- `systemDRecord.Remove` (lines 115-135): privilege check, installed
check, `systemctl disable <name>.service` (aborting on failure), then
`os.Remove` of the unit file (aborting on failure). -/
def systemDRecord.Remove (r : systemDRecord) (env : Env) : OpResult :=
  let removeAction := "Removing " ++ r.description ++ ":"
  if !env.privileged then
    ⟨removeAction ++ failed, some Err.rootPrivileges, []⟩
  else if !(r.isInstalled env) then
    ⟨removeAction ++ failed, some Err.notInstalled, [Effect.statFile r.servicePath]⟩
  else if !env.runOk ["systemctl", "disable", r.name ++ ".service"] then
    ⟨removeAction ++ failed, some (Err.osFailure "disable"),
      [Effect.statFile r.servicePath,
       Effect.runCmd ["systemctl", "disable", r.name ++ ".service"]]⟩
  else if !env.removeOk r.servicePath then
    ⟨removeAction ++ failed, some (Err.osFailure "remove"),
      [Effect.statFile r.servicePath,
       Effect.runCmd ["systemctl", "disable", r.name ++ ".service"],
       Effect.removeFile r.servicePath]⟩
  else
    ⟨removeAction ++ success, none,
      [Effect.statFile r.servicePath,
       Effect.runCmd ["systemctl", "disable", r.name ++ ".service"],
       Effect.removeFile r.servicePath]⟩

/-- `systemDRecord.Start` (lines 138-158). -/
def systemDRecord.Start (r : systemDRecord) (env : Env) : OpResult :=
  let startAction := "Starting " ++ r.description ++ ":"
  if !env.privileged then
    ⟨startAction ++ failed, some Err.rootPrivileges, []⟩
  else if !(r.isInstalled env) then
    ⟨startAction ++ failed, some Err.notInstalled, [Effect.statFile r.servicePath]⟩
  else
    let chk := r.checkRunning env
    if chk.1.2 then
      ⟨startAction ++ failed, some Err.alreadyRunning, Effect.statFile r.servicePath :: chk.2⟩
    else if !env.runOk ["systemctl", "start", r.name ++ ".service"] then
      ⟨startAction ++ failed, some (Err.osFailure "start"),
        Effect.statFile r.servicePath :: chk.2
          ++ [Effect.runCmd ["systemctl", "start", r.name ++ ".service"]]⟩
    else
      ⟨startAction ++ success, none,
        Effect.statFile r.servicePath :: chk.2
          ++ [Effect.runCmd ["systemctl", "start", r.name ++ ".service"]]⟩

/-- `systemDRecord.Stop` (lines 161-181). -/
def systemDRecord.Stop (r : systemDRecord) (env : Env) : OpResult :=
  let stopAction := "Stopping " ++ r.description ++ ":"
  if !env.privileged then
    ⟨stopAction ++ failed, some Err.rootPrivileges, []⟩
  else if !(r.isInstalled env) then
    ⟨stopAction ++ failed, some Err.notInstalled, [Effect.statFile r.servicePath]⟩
  else
    let chk := r.checkRunning env
    if !chk.1.2 then
      ⟨stopAction ++ failed, some Err.alreadyStopped, Effect.statFile r.servicePath :: chk.2⟩
    else if !env.runOk ["systemctl", "stop", r.name ++ ".service"] then
      ⟨stopAction ++ failed, some (Err.osFailure "stop"),
        Effect.statFile r.servicePath :: chk.2
          ++ [Effect.runCmd ["systemctl", "stop", r.name ++ ".service"]]⟩
    else
      ⟨stopAction ++ success, none,
        Effect.statFile r.servicePath :: chk.2
          ++ [Effect.runCmd ["systemctl", "stop", r.name ++ ".service"]]⟩

/-- `systemDRecord.Status` (lines 184-197): empty message on privilege
denial, "Status could not defined" when not installed, otherwise the
`checkRunning` description with a `nil` error even when stopped. -/
def systemDRecord.Status (r : systemDRecord) (env : Env) : OpResult :=
  if !env.privileged then
    ⟨"", some Err.rootPrivileges, []⟩
  else if !(r.isInstalled env) then
    ⟨"Status could not defined", some Err.notInstalled, [Effect.statFile r.servicePath]⟩
  else
    let chk := r.checkRunning env
    ⟨chk.1.1, none, Effect.statFile r.servicePath :: chk.2⟩

/-- `systemDRecord.ExecPath` (lines 200-217): the installed check is
against the record's own unit path; an empty `serviceName` argument is
replaced by the record's own name before invoking
`systemctl execpath <name>.service`, whose raw output is returned. -/
def systemDRecord.ExecPath (r : systemDRecord) (serviceName : String) (env : Env) : OpResult :=
  if !env.privileged then
    ⟨"", some Err.rootPrivileges, []⟩
  else if !(r.isInstalled env) then
    ⟨"", some Err.notInstalled, [Effect.statFile r.servicePath]⟩
  else
    let sn := if serviceName = "" then r.name else serviceName
    let cmd := ["systemctl", "execpath", sn ++ ".service"]
    let out := env.cmdOutput cmd
    ⟨out.1, if out.2 then none else some (Err.osFailure "execpath"),
      [Effect.statFile r.servicePath, Effect.outputCmd cmd]⟩

/-- `systemDRecord.Restart` (lines 220-236): no running-state check. -/
def systemDRecord.Restart (r : systemDRecord) (env : Env) : OpResult :=
  let startAction := "Restarting " ++ r.description ++ ":"
  if !env.privileged then
    ⟨startAction ++ failed, some Err.rootPrivileges, []⟩
  else if !(r.isInstalled env) then
    ⟨startAction ++ failed, some Err.notInstalled, [Effect.statFile r.servicePath]⟩
  else if !env.runOk ["systemctl", "restart", r.name ++ ".service"] then
    ⟨startAction ++ failed, some (Err.osFailure "restart"),
      [Effect.statFile r.servicePath,
       Effect.runCmd ["systemctl", "restart", r.name ++ ".service"]]⟩
  else
    ⟨startAction ++ success, none,
      [Effect.statFile r.servicePath,
       Effect.runCmd ["systemctl", "restart", r.name ++ ".service"]]⟩

/-- The runtime-selected backend variant returned by `newDaemon`. -/
inductive Daemon where
  | systemD (r : systemDRecord)
  | systemV (r : systemVRecord)

/-- `newDaemon` (`daemon_linux.go` lines 13-18): a single `os.Stat` probe
of `/run/systemd/system`; present selects the systemd backend, absent the
SysV backend; both succeed and carry the descriptor fields unchanged. -/
def newDaemon (name port version description : String) (dependencies : List String)
    (env : Env) : (Daemon × Option Err) × List Effect :=
  if env.fileExists "/run/systemd/system" then
    ((Daemon.systemD ⟨name, port, version, description, dependencies⟩, none),
      [Effect.statFile "/run/systemd/system"])
  else
    ((Daemon.systemV ⟨name, port, version, description, dependencies⟩, none),
      [Effect.statFile "/run/systemd/system"])

/-- One element of the parsed Go `text/template`: a literal run of
template text, or one of the named placeholders the `Install` methods
fill from the descriptor (`Name`, `Port`, `Version`, `Description`,
`Path`, `Args`). -/
inductive TplElem where
  | lit (s : String)
  | fName
  | fPort
  | fVersion
  | fDescription
  | fPath
  | fArgs
  deriving Repr, DecidableEq
/-- The case statement of the init-script template (the literal run of the template from `case \"$1\" in` through `esac`, which contains no placeholders). -/
def systemVCaseBlock : String :=
  "case \"$1\" in\n    start)\n        rh_status_q && exit 0\n        $1\n        ;;\n    stop)\n        rh_status_q || exit 0\n        $1\n        ;;\n    restart)\n        $1\n        ;;\n    status)\n        rh_status\n        ;;\n    version)\n        echo $version\n        ;;\n    description)\n        echo $servname\n        ;;\n    execpath)\n        echo $exec\n        ;;\n    *)\n        echo \"Usage: $0 \x7bstart|stop|status|restart|version|description|execpath\x7d\"\n        exit 2\nesac\n"

/-- `systemVConfig` (the init-script template, lines 245-438 of the
source): the Go `text/template` source split at its placeholders
`\x7b\x7b.Name\x7d\x7d`, `\x7b\x7b.Port\x7d\x7d`, `\x7b\x7b.Version\x7d\x7d`,
`\x7b\x7b.Description\x7d\x7d`, `\x7b\x7b.Path\x7d\x7d`, `\x7b\x7b.Args\x7d\x7d`;
literal text is carried byte-for-byte, and the case statement is kept
as the single chunk `systemVCaseBlock`. -/
def systemVConfig : List TplElem := [
  .lit "#! /bin/sh\n#\n#       /etc/rc.d/init.d/",
  .fName,
  .lit "\n#\n#       Starts ",
  .fName,
  .lit " as a daemon\n#\n# chkconfig: 2345 87 17\n# description: Starts and stops a single ",
  .fName,
  .lit " instance on this system\n\n### BEGIN INIT INFO\n# Provides: ",
  .fName,
  .lit " \n# Required-Start: $network $named\n# Required-Stop: $network $named\n# Default-Start: 2 3 4 5\n# Default-Stop: 0 1 6\n# Short-Description: This service manages the ",
  .fDescription,
  .lit ".\n# Description: ",
  .fDescription,
  .lit "\n### END INIT INFO\n\n#\n# Source function library.\n#\nif [ -f /etc/rc.d/init.d/functions ]; then\n    . /etc/rc.d/init.d/functions\nfi\n\nexec=\"",
  .fPath,
  .lit "\"\nservname=\"",
  .fDescription,
  .lit "\"\nport=\"",
  .fPort,
  .lit "\"\nversion=\"",
  .fVersion,
  .lit "\"\n\nproc=\"",
  .fName,
  .lit "\"\npidfile=\"/var/run/$proc.pid\"\nlockfile=\"/var/lock/subsys/$proc\"\nstdoutlog=\"/var/log/$proc.log\"\nstderrlog=\"/var/log/$proc.err\"\n\nprivilegeCheck() \x7b\n    testFile=\"/var/tmp/$\x7bproc\x7d_testPriv.t\"\n    touch $testFile\n    chown root:root $testFile 2>/dev/null\n    if [ $? != 0 ]; then\n        rm -f $testFile\n        echo \"Error:  You must have root user privileges. Possibly using \x27sudo\x27 command should help\"\n        exit 1\n    fi\n    rm -f $testFile\n    if [ $? != 0 ]; then\n        echo \"Error:  You must have root user privileges. Possibly using \x27sudo\x27 command should help\"\n        exit 1\n    fi\n\x7d\n\n# root or sudo command\nprivilegeCheck\n\n[ -d $(dirname $lockfile) ] || mkdir -p $(dirname $lockfile)\n\n[ -e /etc/sysconfig/$proc ] && . /etc/sysconfig/$proc\n\nstart() \x7b\n    [ -x $exec ] || exit 5\n\n    if [ -f $pidfile ]; then\n        if ! [ -d \"/proc/$(cat $pidfile)\" ]; then\n            rm $pidfile\n            if [ -f $lockfile ]; then\n                rm $lockfile\n            fi\n        fi\n    fi\n\n    if ! [ -f $pidfile ]; then\n        printf \"Starting $servname:\\t\"\n        if [ $? != 0 ]; then\n            echo -n \"Starting $servname:     \"\n        fi\n        echo \"$(date)\" >> $stdoutlog\n        $exec ",
  .fArgs,
  .lit " >> $stdoutlog 2>> $stderrlog &\n        echo $! > $pidfile\n        touch $lockfile\n        success 2>/dev/null\n        if [ $? != 0 ]; then\n            echo \"[ OK ]\"\n        else\n            echo\n        fi\n    else\n        # failure\n        echo\n        printf \"$pidfile still exists...\\n\"\n        if [ $? != 0 ]; then\n            echo \"$pidfile still exists...\"\n        fi\n        exit 7\n    fi\n\x7d\n\nstop() \x7b\n    printf \"Stopping $servname:\\t\"\n    if [ $? != 0 ]; then\n        echo -n \"Stopping $servname:     \"\n    fi\n    kill -9 $(cat $pidfile) && rm -f $pidfile\n    retval=$?\n    [ $retval -eq 0 ] && rm -f $lockfile\n    if [ $? != 0 ]; then\n        failure 2>/dev/null\n        if [ $? != 0 ]; then\n            echo \"[ FAILED ]\"\n        else\n            echo\n        fi\n    else\n        success 2>/dev/null\n        if [ $? != 0 ]; then\n            echo \"[ OK ]\"\n        else\n            echo\n        fi\n    fi\n    return $retval\n\x7d\n\nclear() \x7b\n    rm -f $pidfile\n    rm -f $lockfile\n\x7d\n\nrestart() \x7b\n    stop >/dev/null 2>/dev/null\n    start\n\x7d\n\nrh_status() \x7b\n        pidCmd=$(lsof -i$\x7bport\x7d | awk \x27\x7bprint $2;\x7d\x27 | sed -n 2p)\n        if [ ! -f \"$pidfile\" ] && [ -z \"$pidCmd\" ]; then\n            echo \"$servname is stopped\";\n            return 1;\n        fi\n        pid=$(cat $pidfile);\n        if [ \"$pidCmd\" != \"$pid\" ]; then\n            if [ ! -z \"$pid\" ]; then\n                kill -9 $pid\n            fi\n            if [ ! -z \"$pidCmd\" ]; then\n                echo \"$pidCmd\" > \"$pidfile\";\n                touch $lockfile\n                echo \"$servname is running [pid  $(cat $pidfile)]\";\n                return 0;\n            fi\n            clear\n            echo \"$servname is stopped\";\n            return 1;\n        fi\n        echo \"$servname is running [pid  $pid]\";\n        return 0;\n\x7d\n\nrh_status_q() \x7b\n    rh_status >/dev/null 2>&1\n\x7d\n\n",
  .lit systemVCaseBlock,
  .lit "\nexit $?\n"
]

/-- Substitute one template element, as `templ.Execute` does with the
struct `systemVRecord.Install` passes (lines 88-95): `Name`, `Port`,
`Version`, `Description` from the descriptor, `Path` the resolved
executable path, `Args` the extra arguments joined by spaces. -/
def TplElem.subst (name port version description path args : String) : TplElem → List Char
  | .lit s => s.data
  | .fName => name.data
  | .fPort => port.data
  | .fVersion => version.data
  | .fDescription => description.data
  | .fPath => path.data
  | .fArgs => args.data

/-- Render a template: concatenate its elements after substitution. -/
def renderTpl (t : List TplElem) (name port version description path args : String) :
    List Char :=
  (t.map (TplElem.subst name port version description path args)).flatten

/-- Split a character list into lines at newline characters
(accumulating the current line reversed, so evaluation recurses once
per line rather than once per character). -/
def splitLinesAux : List Char → List Char → List (List Char)
  | cur, [] => [cur.reverse]
  | cur, c :: cs =>
    if c = '\n' then cur.reverse :: splitLinesAux [] cs
    else splitLinesAux (c :: cur) cs

/-- Split a character list into lines at newline characters. -/
def splitLines (s : List Char) : List (List Char) :=
  splitLinesAux [] s

/-- The case label offered by a line of a rendered script, when the line
(after leading spaces) has the shape of a named `case` arm: a non-empty
run of letters followed directly by `)`.  (The default arm `*)` and
ordinary script lines do not have this shape.) -/
def lineLabel (line : List Char) : Option String :=
  let t := line.dropWhile (fun c => c == ' ')
  match t.reverse with
  | ')' :: w =>
    let w := w.reverse
    if w.isEmpty then none
    else if w.all (fun c => c.isAlpha) then some (String.mk w) else none
  | _ => none

/-- All named-case-arm-shaped lines of a script, in order. -/
def caseLabels (s : List Char) : List String :=
  (splitLines s).filterMap lineLabel

/-- Test fixture: the spec's example descriptor for the SysV backend. -/
def fooV : systemVRecord := ⟨"foo", "8080", "1.0", "Foo Service", []⟩

/-- Test fixture: the spec's example descriptor for the systemd backend. -/
def fooD : systemDRecord := ⟨"foo", "8080", "1.0", "Foo Service", []⟩

/-- Test environment: privilege denied; every other outcome benign. -/
def envDeny : Env :=
  ⟨false, fun _ => false, fun _ => true, fun _ => true, fun _ => true, fun _ => true,
   fun _ => true, fun _ => ("", true), some "/usr/bin/foo", true⟩

/-- Test environment: privileged, every file present, every interaction
succeeding, the status command reporting a running service. -/
def envAllOk : Env :=
  ⟨true, fun _ => true, fun _ => true, fun _ => true, fun _ => true, fun _ => true,
   fun _ => true, fun _ => ("Service foo (pid  99) is running...", true),
   some "/usr/bin/foo", true⟩

/-- Test environment: privileged, service installed, but `os.Remove`
fails on every path. -/
def envRemoveFail : Env :=
  ⟨true, fun _ => true, fun _ => true, fun _ => true, fun _ => true, fun _ => false,
   fun _ => true, fun _ => ("", true), some "/usr/bin/foo", true⟩

/-- Test environment: privileged, nothing installed, file creation and
template execution succeed, but `os.Chmod` fails. -/
def envChmodFail : Env :=
  ⟨true, fun _ => false, fun _ => true, fun _ => false, fun _ => true, fun _ => true,
   fun _ => true, fun _ => ("", true), some "/usr/bin/foo", true⟩

/-- Test environment: privileged, nothing installed, every interaction
succeeding. -/
def envFresh : Env :=
  ⟨true, fun _ => false, fun _ => true, fun _ => true, fun _ => true, fun _ => true,
   fun _ => true, fun _ => ("", true), some "/usr/bin/foo", true⟩

/-- `String.append` concatenates the character data. -/
theorem strData_append (a b : String) : (a ++ b).data = a.data ++ b.data := by
  cases a
  cases b
  rfl

/-- A string with a non-empty left part is non-empty after appending. -/
theorem append_data_ne_nil_left (a b : String) (h : a.data ≠ []) : (a ++ b).data ≠ [] := by
  rw [strData_append]
  intro he
  exact h (List.append_eq_nil.mp he).1

/-- A string with a non-empty left part is not the empty string. -/
theorem append_ne_empty_of_left (a b : String) (h : a.data ≠ []) : a ++ b ≠ "" := by
  intro he
  exact append_data_ne_nil_left a b h (he ▸ rfl)

/-- The message of `res` names the action `a` and marks the outcome:
the failure marker appears exactly when the structured error is present,
the success marker exactly when it is absent, and the message is never
empty. -/
def namesActionOutcome (a : String) (res : OpResult) : Prop :=
  res.msg ≠ "" ∧
    ((res.msg = a ++ failed ∧ res.err ≠ none) ∨ (res.msg = a ++ success ∧ res.err = none))

/-- A failure-branch result names its action and outcome. -/
theorem namesActionOutcome_failed (a : String) (ha : a.data ≠ []) (e : Err)
    (t : List Effect) : namesActionOutcome a ⟨a ++ failed, some e, t⟩ :=
  ⟨append_ne_empty_of_left _ _ ha, Or.inl ⟨rfl, by simp⟩⟩

/-- A success-branch result names its action and outcome. -/
theorem namesActionOutcome_success (a : String) (ha : a.data ≠ []) (t : List Effect) :
    namesActionOutcome a ⟨a ++ success, none, t⟩ :=
  ⟨append_ne_empty_of_left _ _ ha, Or.inr ⟨rfl, rfl⟩⟩

/-- Claim C2: the systemd-backend status parser, applied to the native
status command's output, reports running exactly when the command
succeeded and the output contains the literal substring `Active: active`;
in that case it reports the digits captured by `Main PID: <digits>` when
that pattern matches (e.g. `4321` for the fixture output), and for any
output lacking the substring, or on command failure, it reports the
stopped result without raising an error (the parser is total). -/
theorem systemD_status_parser_spec :
    (∀ (name : String) (out : String × Bool),
      ((systemDStatusText name out).2 = true ↔
        out.2 = true ∧ chMatch "Active: active".data out.1.data = true))
    ∧ (∀ (name : String) (out : String × Bool) (d : List Char),
        out.2 = true →
        chMatch "Active: active".data out.1.data = true →
        chFindDigits "Main PID: ".data out.1.data = some d →
        systemDStatusText name out =
          ("Service " ++ name ++ " (pid  " ++ String.mk d ++ ") is running...", true))
    ∧ systemDStatusText "foo"
        ("foo.service - sample\n   Active: active (running)\n Main PID: 4321 (foo)\n", true)
        = ("Service foo (pid  4321) is running...", true)
    ∧ (∀ (name : String) (out : String × Bool),
        out.2 = false ∨ chMatch "Active: active".data out.1.data = false →
        systemDStatusText name out = ("Service " ++ name ++ " is stopped", false)) := by
  refine ⟨?_, ?_, by decide, ?_⟩
  · intro name out
    rcases out with ⟨o, b⟩
    cases b
    · simp [systemDStatusText]
    · simp only [systemDStatusText]
      cases h : chMatch "Active: active".data o.data
      · simp [h]
      · simp only [h, if_true]
        cases hd : chFindDigits "Main PID: ".data o.data <;> simp
  · intro name out d h2 hm hd
    rcases out with ⟨o, b⟩
    cases b
    · exact absurd h2 (by simp)
    · simp only [systemDStatusText] at *
      simp [hm, hd]
  · intro name out h
    rcases out with ⟨o, b⟩
    rcases h with h | h
    · subst h
      simp [systemDStatusText]
    · cases b
      · simp [systemDStatusText]
      · simp only at h
        simp [systemDStatusText, h]

/-- Witness for C2 at a concrete fixture output. -/
theorem systemD_status_parser_spec_witness :
    systemDStatusText "foo" ("Active: active Main PID: 77", true)
      = ("Service foo (pid  77) is running...", true) :=
  systemD_status_parser_spec.2.1 "foo" ("Active: active Main PID: 77", true)
    "77".data rfl (by decide) (by decide)

/-- Claim C3: the init-script-backend status parser reports running
exactly when the native status command succeeded and its output matches
`running` and also contains the service name; in that case it reports
the digits captured by the two-space `pid  <digits>` pattern when
present (e.g. `99` for `Service foo (pid  99) is running...`), and
reports running without a PID otherwise; any other output, or a command
failure, yields the stopped result without raising an error (the parser
is total). -/
theorem systemV_status_parser_spec :
    (∀ (name : String) (out : String × Bool),
      ((systemVStatusText name out).2 = true ↔
        out.2 = true ∧ chMatch "running".data out.1.data = true
          ∧ chMatch name.data out.1.data = true))
    ∧ (∀ (name : String) (out : String × Bool) (d : List Char),
        out.2 = true →
        chMatch "running".data out.1.data = true →
        chMatch name.data out.1.data = true →
        chFindDigits "pid  ".data out.1.data = some d →
        systemVStatusText name out =
          ("Service " ++ name ++ " (pid  " ++ String.mk d ++ ") is running...", true))
    ∧ (∀ (name : String) (out : String × Bool),
        out.2 = true →
        chMatch "running".data out.1.data = true →
        chMatch name.data out.1.data = true →
        chFindDigits "pid  ".data out.1.data = none →
        systemVStatusText name out = ("Service " ++ name ++ " is running...", true))
    ∧ systemVStatusText "foo" ("Service foo (pid  99) is running...", true)
        = ("Service foo (pid  99) is running...", true)
    ∧ (∀ (name : String) (out : String × Bool),
        out.2 = false ∨ chMatch "running".data out.1.data = false
          ∨ chMatch name.data out.1.data = false →
        systemVStatusText name out = ("Service " ++ name ++ " is stopped", false)) := by
  refine ⟨?_, ?_, ?_, by decide, ?_⟩
  · intro name out
    rcases out with ⟨o, b⟩
    cases b
    · simp [systemVStatusText]
    · simp only [systemVStatusText]
      cases h : chMatch "running".data o.data
      · simp [h]
      · cases hn : chMatch name.data o.data
        · simp [h, hn]
        · simp only [h, hn, if_true]
          cases hd : chFindDigits "pid  ".data o.data <;> simp
  · intro name out d h2 hr hn hd
    rcases out with ⟨o, b⟩
    cases b
    · exact absurd h2 (by simp)
    · simp only [systemVStatusText] at *
      simp [hr, hn, hd]
  · intro name out h2 hr hn hd
    rcases out with ⟨o, b⟩
    cases b
    · exact absurd h2 (by simp)
    · simp only [systemVStatusText] at *
      simp [hr, hn, hd]
  · intro name out h
    rcases out with ⟨o, b⟩
    cases b
    · simp [systemVStatusText]
    · rcases h with h | h | h
      · exact absurd h (by simp)
      · simp only at h
        simp [systemVStatusText, h]
      · simp only at h
        simp [systemVStatusText, h]

/-- Witness for C3 at the spec's fixture output. -/
theorem systemV_status_parser_spec_witness :
    systemVStatusText "foo" ("Service foo (pid  99) is running...", true)
      = ("Service foo (pid  99) is running...", true) :=
  systemV_status_parser_spec.2.1 "foo" ("Service foo (pid  99) is running...", true)
    "99".data rfl (by decide) (by decide) (by decide)

/-- Claim C4: for every backend and every operation the privilege check
is evaluated first; on denial the operation returns the
PermissionDenied-class error with an empty interaction trace — no file
creation, deletion, chmod, symlink, stat, or native-command invocation
was attempted. -/
theorem privilege_guard_first
    (rv : systemVRecord) (rd : systemDRecord) (args : List String) (sn : String)
    (env : Env) (h : env.privileged = false) :
    rv.Install args env
      = ⟨"Install " ++ rv.description ++ ":" ++ failed, some Err.rootPrivileges, []⟩
    ∧ rv.Remove env
      = ⟨"Removing " ++ rv.description ++ ":" ++ failed, some Err.rootPrivileges, []⟩
    ∧ rv.Start env
      = ⟨"Starting " ++ rv.description ++ ":" ++ failed, some Err.rootPrivileges, []⟩
    ∧ rv.Stop env
      = ⟨"Stopping " ++ rv.description ++ ":" ++ failed, some Err.rootPrivileges, []⟩
    ∧ rv.Restart env
      = ⟨"Restarting " ++ rv.description ++ ":" ++ failed, some Err.rootPrivileges, []⟩
    ∧ rv.Status env = ⟨"", some Err.rootPrivileges, []⟩
    ∧ rv.ExecPath sn env = ⟨"", some Err.rootPrivileges, []⟩
    ∧ rd.Install args env
      = ⟨"Install " ++ rd.description ++ ":" ++ failed, some Err.rootPrivileges, []⟩
    ∧ rd.Remove env
      = ⟨"Removing " ++ rd.description ++ ":" ++ failed, some Err.rootPrivileges, []⟩
    ∧ rd.Start env
      = ⟨"Starting " ++ rd.description ++ ":" ++ failed, some Err.rootPrivileges, []⟩
    ∧ rd.Stop env
      = ⟨"Stopping " ++ rd.description ++ ":" ++ failed, some Err.rootPrivileges, []⟩
    ∧ rd.Restart env
      = ⟨"Restarting " ++ rd.description ++ ":" ++ failed, some Err.rootPrivileges, []⟩
    ∧ rd.Status env = ⟨"", some Err.rootPrivileges, []⟩
    ∧ rd.ExecPath sn env = ⟨"", some Err.rootPrivileges, []⟩ := by
  refine ⟨?_, ?_, ?_, ?_, ?_, ?_, ?_, ?_, ?_, ?_, ?_, ?_, ?_, ?_⟩ <;>
    simp [systemVRecord.Install, systemVRecord.Remove, systemVRecord.Start,
      systemVRecord.Stop, systemVRecord.Restart, systemVRecord.Status,
      systemVRecord.ExecPath, systemDRecord.Install, systemDRecord.Remove,
      systemDRecord.Start, systemDRecord.Stop, systemDRecord.Restart,
      systemDRecord.Status, systemDRecord.ExecPath, h]

/-- Witness for C4: concrete denial environment; Install and Status of
both backends deny with an empty trace. -/
theorem privilege_guard_first_witness :
    fooV.Install [] envDeny
      = ⟨"Install " ++ fooV.description ++ ":" ++ failed, some Err.rootPrivileges, []⟩
    ∧ fooD.Status envDeny = ⟨"", some Err.rootPrivileges, []⟩ := by
  have h := privilege_guard_first fooV fooD [] "" envDeny rfl
  exact ⟨h.1, h.2.2.2.2.2.2.2.2.2.2.2.2.1⟩

/-- Claim C5: for both backends, Install when the definition file
already exists returns the AlreadyInstalled error, and its whole
interaction trace is the single (non-mutating) stat of the definition
path — no mutation of the existing definition file or of any other
filesystem state is attempted. -/
theorem install_already_installed_no_mutation
    (rv : systemVRecord) (rd : systemDRecord) (args : List String) (env : Env)
    (hp : env.privileged = true)
    (hv : env.fileExists rv.servicePath = true)
    (hd : env.fileExists rd.servicePath = true) :
    rv.Install args env
      = ⟨"Install " ++ rv.description ++ ":" ++ failed, some Err.alreadyInstalled,
          [Effect.statFile rv.servicePath]⟩
    ∧ rd.Install args env
      = ⟨"Install " ++ rd.description ++ ":" ++ failed, some Err.alreadyInstalled,
          [Effect.statFile rd.servicePath]⟩
    ∧ (rv.Install args env).trace.all (fun e => !e.isMutation) = true
    ∧ (rd.Install args env).trace.all (fun e => !e.isMutation) = true := by
  refine ⟨?_, ?_, ?_, ?_⟩ <;>
    simp [systemVRecord.Install, systemDRecord.Install, Effect.isMutation, hp, hv, hd]

/-- Witness for C5: with everything already installed, Install of the
SysV fixture reports AlreadyInstalled with a stat-only trace. -/
theorem install_already_installed_no_mutation_witness :
    fooV.Install [] envAllOk
      = ⟨"Install " ++ fooV.description ++ ":" ++ failed, some Err.alreadyInstalled,
          [Effect.statFile fooV.servicePath]⟩
    ∧ (fooV.Install [] envAllOk).trace.all (fun e => !e.isMutation) = true := by
  have h := install_already_installed_no_mutation fooV fooD [] envAllOk rfl rfl rfl
  exact ⟨h.1, h.2.2.1⟩

/-- Claim C8: backend construction performs exactly one probe — the stat
of the modern init system's runtime marker `/run/systemd/system` — and
selects the systemd backend when it exists, the SysV backend otherwise;
construction always succeeds and the descriptor fields are carried
unchanged into the selected backend. -/
theorem newDaemon_single_probe_detection
    (name port version description : String) (deps : List String) (env : Env) :
    (newDaemon name port version description deps env).2
        = [Effect.statFile "/run/systemd/system"]
    ∧ (newDaemon name port version description deps env).1.2 = none
    ∧ (newDaemon name port version description deps env).1.1
        = (if env.fileExists "/run/systemd/system"
           then Daemon.systemD ⟨name, port, version, description, deps⟩
           else Daemon.systemV ⟨name, port, version, description, deps⟩) := by
  refine ⟨?_, ?_, ?_⟩ <;>
    · unfold newDaemon
      split <;> simp

/-- Claim C10: for both backends, ExecPath substitutes the backend's
own service name when called with the empty string before querying the
native tool, and its must-be-installed precondition is evaluated against
the backend's own definition-file path: with a different explicit name
the stat trace still touches only the backend's own path, and the other
service's installation state is never checked. -/
theorem execPath_substitutes_own_name
    (rv : systemVRecord) (rd : systemDRecord) (sn : String) (env : Env)
    (hp : env.privileged = true) :
    (env.fileExists rv.servicePath = false →
      rv.ExecPath sn env = ⟨"", some Err.notInstalled, [Effect.statFile rv.servicePath]⟩)
    ∧ (env.fileExists rd.servicePath = false →
      rd.ExecPath sn env = ⟨"", some Err.notInstalled, [Effect.statFile rd.servicePath]⟩)
    ∧ (env.fileExists rv.servicePath = true →
      (rv.ExecPath sn env).trace
        = [Effect.statFile rv.servicePath,
           Effect.outputCmd ["service", if sn = "" then rv.name else sn, "execpath"]])
    ∧ (env.fileExists rd.servicePath = true →
      (rd.ExecPath sn env).trace
        = [Effect.statFile rd.servicePath,
           Effect.outputCmd
             ["systemctl", "execpath", (if sn = "" then rd.name else sn) ++ ".service"]]) := by
  refine ⟨fun h => ?_, fun h => ?_, fun h => ?_, fun h => ?_⟩ <;>
    simp [systemVRecord.ExecPath, systemDRecord.ExecPath, systemVRecord.isInstalled,
      systemDRecord.isInstalled, hp, h]

/-- Witness for C10: with the empty name, the fixture SysV backend
queries the native tool under its own name `foo`. -/
theorem execPath_substitutes_own_name_witness :
    (fooV.ExecPath "" envAllOk).trace
      = [Effect.statFile fooV.servicePath,
         Effect.outputCmd ["service", if "" = "" then fooV.name else "", "execpath"]] :=
  (execPath_substitutes_own_name fooV fooD "" envAllOk rfl).2.2.1 rfl

/-- Counterexample to claim C1 as stated: with privileges held and the
service installed, a failing definition-file deletion makes the SysV
Remove return immediately — its trace stops at the failed `os.Remove` of
`/etc/init.d/foo` and none of the runlevel-symlink deletions is
attempted. -/
theorem systemV_remove_stops_at_delete_failure :
    (fooV.Remove envRemoveFail).err = some (Err.osFailure "remove")
    ∧ (fooV.Remove envRemoveFail).trace
        = [Effect.statFile "/etc/init.d/foo", Effect.removeFile "/etc/init.d/foo"]
    ∧ Effect.removeFile "/etc/rc2.d/S87foo" ∉ (fooV.Remove envRemoveFail).trace := by
  refine ⟨rfl, rfl, ?_⟩
  decide

/-- Claim C1 as amended: once past the privilege and installed checks,
Remove returns at the first failing primary step (for the systemd
backend the disable command and then the unit-file deletion, for the
SysV backend the definition-file deletion); only after the SysV
definition file is successfully deleted are all seven runlevel-symlink
deletions attempted, their individual outcomes ignored, with overall
success reported. -/
theorem remove_cleanup_policy
    (rv : systemVRecord) (rd : systemDRecord) (env : Env)
    (hp : env.privileged = true) :
    (env.fileExists rv.servicePath = true → env.removeOk rv.servicePath = false →
      rv.Remove env
        = ⟨"Removing " ++ rv.description ++ ":" ++ failed, some (Err.osFailure "remove"),
            [Effect.statFile rv.servicePath, Effect.removeFile rv.servicePath]⟩)
    ∧ (env.fileExists rv.servicePath = true → env.removeOk rv.servicePath = true →
      rv.Remove env
        = ⟨"Removing " ++ rv.description ++ ":" ++ success, none,
            [Effect.statFile rv.servicePath, Effect.removeFile rv.servicePath,
             Effect.removeFile ("/etc/rc2.d/S87" ++ rv.name),
             Effect.removeFile ("/etc/rc3.d/S87" ++ rv.name),
             Effect.removeFile ("/etc/rc4.d/S87" ++ rv.name),
             Effect.removeFile ("/etc/rc5.d/S87" ++ rv.name),
             Effect.removeFile ("/etc/rc0.d/K17" ++ rv.name),
             Effect.removeFile ("/etc/rc1.d/K17" ++ rv.name),
             Effect.removeFile ("/etc/rc6.d/K17" ++ rv.name)]⟩)
    ∧ (env.fileExists rd.servicePath = true →
        env.runOk ["systemctl", "disable", rd.name ++ ".service"] = false →
      rd.Remove env
        = ⟨"Removing " ++ rd.description ++ ":" ++ failed, some (Err.osFailure "disable"),
            [Effect.statFile rd.servicePath,
             Effect.runCmd ["systemctl", "disable", rd.name ++ ".service"]]⟩)
    ∧ (env.fileExists rd.servicePath = true →
        env.runOk ["systemctl", "disable", rd.name ++ ".service"] = true →
        env.removeOk rd.servicePath = false →
      rd.Remove env
        = ⟨"Removing " ++ rd.description ++ ":" ++ failed, some (Err.osFailure "remove"),
            [Effect.statFile rd.servicePath,
             Effect.runCmd ["systemctl", "disable", rd.name ++ ".service"],
             Effect.removeFile rd.servicePath]⟩) := by
  refine ⟨fun h1 h2 => ?_, fun h1 h2 => ?_, fun h1 h2 => ?_, fun h1 h2 h3 => ?_⟩ <;>
    simp [systemVRecord.Remove, systemDRecord.Remove, systemVRecord.isInstalled,
      systemDRecord.isInstalled, hp, h1, h2]
  exact h3

/-- Witness for the amended C1: with everything succeeding, the fixture
SysV Remove reports success and attempts all seven runlevel-symlink
deletions after the definition-file deletion. -/
theorem remove_cleanup_policy_witness :
    fooV.Remove envAllOk
      = ⟨"Removing " ++ fooV.description ++ ":" ++ success, none,
          [Effect.statFile fooV.servicePath, Effect.removeFile fooV.servicePath,
           Effect.removeFile ("/etc/rc2.d/S87" ++ fooV.name),
           Effect.removeFile ("/etc/rc3.d/S87" ++ fooV.name),
           Effect.removeFile ("/etc/rc4.d/S87" ++ fooV.name),
           Effect.removeFile ("/etc/rc5.d/S87" ++ fooV.name),
           Effect.removeFile ("/etc/rc0.d/K17" ++ fooV.name),
           Effect.removeFile ("/etc/rc1.d/K17" ++ fooV.name),
           Effect.removeFile ("/etc/rc6.d/K17" ++ fooV.name)]⟩ :=
  (remove_cleanup_policy fooV fooD envAllOk rfl).2.1 rfl rfl

/-- Counterexample to claim C6 as stated: in an environment where the
definition file is created and the template written successfully but the
subsequent chmod fails, Install reports failure even though the
definition file itself was written — so "reports overall success
whenever the definition file itself was written" does not hold. -/
theorem systemV_install_chmod_failure_after_write :
    (fooV.Install [] envChmodFail).err = some (Err.osFailure "chmod")
    ∧ envChmodFail.createOk fooV.servicePath = true
    ∧ envChmodFail.templOk = true
    ∧ Effect.createFile "/etc/init.d/foo" ∈ (fooV.Install [] envChmodFail).trace := by
  refine ⟨rfl, rfl, rfl, ?_⟩
  decide

/-- Claim C6 as amended: the SysV Install creates start symlinks
`S87<name>` in the rc directories of runlevels 2-5 and kill symlinks
`K17<name>` for runlevels 0, 1 and 6; individual symlink failures are
skipped silently (the result does not depend on the symlink outcomes at
all), and the operation reports overall success whenever the definition
file was written and the preceding steps — including the chmod to 0755 —
succeeded (a chmod failure still fails the operation even though the
file was written). -/
theorem systemV_install_symlinks_best_effort
    (r : systemVRecord) (args : List String) (env : Env) (f : String → Bool)
    (hp : env.privileged = true) (hni : env.fileExists r.servicePath = false)
    (hc : env.createOk r.servicePath = true) (hx : env.execPathRes.isSome = true)
    (ht : env.templOk = true) (hm : env.chmodOk r.servicePath = true) :
    r.Install args { env with symlinkOk := f } = r.Install args env
    ∧ r.Install args env
      = ⟨"Install " ++ r.description ++ ":" ++ success, none,
          [Effect.statFile r.servicePath, Effect.createFile r.servicePath,
           Effect.chmodFile r.servicePath 0o755,
           Effect.symlinkFile r.servicePath ("/etc/rc2.d/S87" ++ r.name),
           Effect.symlinkFile r.servicePath ("/etc/rc3.d/S87" ++ r.name),
           Effect.symlinkFile r.servicePath ("/etc/rc4.d/S87" ++ r.name),
           Effect.symlinkFile r.servicePath ("/etc/rc5.d/S87" ++ r.name),
           Effect.symlinkFile r.servicePath ("/etc/rc0.d/K17" ++ r.name),
           Effect.symlinkFile r.servicePath ("/etc/rc1.d/K17" ++ r.name),
           Effect.symlinkFile r.servicePath ("/etc/rc6.d/K17" ++ r.name)]⟩ := by
  obtain ⟨p, hxp⟩ := Option.isSome_iff_exists.mp hx
  constructor
  · cases env
    rfl
  · simp [systemVRecord.Install, hp, hni, hc, ht, hm, hxp]

/-- Witness for the amended C6: the fixture SysV Install on a fresh
environment (chmod succeeding) reports success with the seven symlink
attempts, and an environment differing only in symlink outcomes gives
the identical result. -/
theorem systemV_install_symlinks_best_effort_witness :
    fooV.Install [] { envFresh with symlinkOk := fun _ => false }
        = fooV.Install [] envFresh
    ∧ fooV.Install [] envFresh
      = ⟨"Install " ++ fooV.description ++ ":" ++ success, none,
          [Effect.statFile fooV.servicePath, Effect.createFile fooV.servicePath,
           Effect.chmodFile fooV.servicePath 0o755,
           Effect.symlinkFile fooV.servicePath ("/etc/rc2.d/S87" ++ fooV.name),
           Effect.symlinkFile fooV.servicePath ("/etc/rc3.d/S87" ++ fooV.name),
           Effect.symlinkFile fooV.servicePath ("/etc/rc4.d/S87" ++ fooV.name),
           Effect.symlinkFile fooV.servicePath ("/etc/rc5.d/S87" ++ fooV.name),
           Effect.symlinkFile fooV.servicePath ("/etc/rc0.d/K17" ++ fooV.name),
           Effect.symlinkFile fooV.servicePath ("/etc/rc1.d/K17" ++ fooV.name),
           Effect.symlinkFile fooV.servicePath ("/etc/rc6.d/K17" ++ fooV.name)]⟩ :=
  systemV_install_symlinks_best_effort fooV [] envFresh (fun _ => false)
    rfl rfl rfl rfl rfl rfl

/-- Counterexample to claim C7 as stated: on privilege denial the
systemd backend's Status returns the empty string as its message (and
likewise ExecPath), so not every backend method returns a non-empty
action-status message on every outcome. -/
theorem status_empty_message_on_privilege_denial :
    (fooD.Status envDeny).msg = "" ∧ (fooD.Status envDeny).err = some Err.rootPrivileges
    ∧ (fooV.ExecPath "" envDeny).msg = "" := by
  exact ⟨rfl, rfl, rfl⟩

/-- Claim C7 as amended: the five lifecycle mutators (Install, Remove,
Start, Stop, Restart) of both backends return, on every outcome
including privilege denial, a non-empty message naming the attempted
action with the failure marker exactly when the structured error is
present and the success marker exactly when it is absent; Status and
ExecPath do not — both return the empty string on privilege denial (and
ExecPath's success result is the native tool's raw output rather than an
action-status message). -/
theorem action_message_policy
    (rv : systemVRecord) (rd : systemDRecord) (args : List String) (sn : String)
    (env : Env) :
    namesActionOutcome ("Install " ++ rv.description ++ ":") (rv.Install args env)
    ∧ namesActionOutcome ("Removing " ++ rv.description ++ ":") (rv.Remove env)
    ∧ namesActionOutcome ("Starting " ++ rv.description ++ ":") (rv.Start env)
    ∧ namesActionOutcome ("Stopping " ++ rv.description ++ ":") (rv.Stop env)
    ∧ namesActionOutcome ("Restarting " ++ rv.description ++ ":") (rv.Restart env)
    ∧ namesActionOutcome ("Install " ++ rd.description ++ ":") (rd.Install args env)
    ∧ namesActionOutcome ("Removing " ++ rd.description ++ ":") (rd.Remove env)
    ∧ namesActionOutcome ("Starting " ++ rd.description ++ ":") (rd.Start env)
    ∧ namesActionOutcome ("Stopping " ++ rd.description ++ ":") (rd.Stop env)
    ∧ namesActionOutcome ("Restarting " ++ rd.description ++ ":") (rd.Restart env)
    ∧ (env.privileged = false →
        (rv.Status env).msg = "" ∧ (rd.Status env).msg = ""
        ∧ (rv.ExecPath sn env).msg = "" ∧ (rd.ExecPath sn env).msg = "") := by
  have hv : ∀ a : String, a.data ≠ [] → ((a ++ rv.description ++ ":").data ≠ []) :=
    fun a ha => append_data_ne_nil_left _ _ (append_data_ne_nil_left _ _ ha)
  have hd : ∀ a : String, a.data ≠ [] → ((a ++ rd.description ++ ":").data ≠ []) :=
    fun a ha => append_data_ne_nil_left _ _ (append_data_ne_nil_left _ _ ha)
  refine ⟨?_, ?_, ?_, ?_, ?_, ?_, ?_, ?_, ?_, ?_, ?_⟩
  · simp only [systemVRecord.Install]
    repeat' split
    all_goals
      first
        | exact namesActionOutcome_failed _ (hv _ (by decide)) _ _
        | exact namesActionOutcome_success _ (hv _ (by decide)) _
  · simp only [systemVRecord.Remove]
    repeat' split
    all_goals
      first
        | exact namesActionOutcome_failed _ (hv _ (by decide)) _ _
        | exact namesActionOutcome_success _ (hv _ (by decide)) _
  · simp only [systemVRecord.Start]
    repeat' split
    all_goals
      first
        | exact namesActionOutcome_failed _ (hv _ (by decide)) _ _
        | exact namesActionOutcome_success _ (hv _ (by decide)) _
  · simp only [systemVRecord.Stop]
    repeat' split
    all_goals
      first
        | exact namesActionOutcome_failed _ (hv _ (by decide)) _ _
        | exact namesActionOutcome_success _ (hv _ (by decide)) _
  · simp only [systemVRecord.Restart]
    repeat' split
    all_goals
      first
        | exact namesActionOutcome_failed _ (hv _ (by decide)) _ _
        | exact namesActionOutcome_success _ (hv _ (by decide)) _
  · simp only [systemDRecord.Install]
    repeat' split
    all_goals
      first
        | exact namesActionOutcome_failed _ (hd _ (by decide)) _ _
        | exact namesActionOutcome_success _ (hd _ (by decide)) _
  · simp only [systemDRecord.Remove]
    repeat' split
    all_goals
      first
        | exact namesActionOutcome_failed _ (hd _ (by decide)) _ _
        | exact namesActionOutcome_success _ (hd _ (by decide)) _
  · simp only [systemDRecord.Start]
    repeat' split
    all_goals
      first
        | exact namesActionOutcome_failed _ (hd _ (by decide)) _ _
        | exact namesActionOutcome_success _ (hd _ (by decide)) _
  · simp only [systemDRecord.Stop]
    repeat' split
    all_goals
      first
        | exact namesActionOutcome_failed _ (hd _ (by decide)) _ _
        | exact namesActionOutcome_success _ (hd _ (by decide)) _
  · simp only [systemDRecord.Restart]
    repeat' split
    all_goals
      first
        | exact namesActionOutcome_failed _ (hd _ (by decide)) _ _
        | exact namesActionOutcome_success _ (hd _ (by decide)) _
  · intro h
    refine ⟨?_, ?_, ?_, ?_⟩ <;>
      simp [systemVRecord.Status, systemDRecord.Status, systemVRecord.ExecPath,
        systemDRecord.ExecPath, h]

/-- Witness for the amended C7: the fixture SysV Start on a denial
environment reports the action with the failure marker, and the fixture
systemd Status message is empty there. -/
theorem action_message_policy_witness :
    namesActionOutcome ("Starting " ++ fooV.description ++ ":") (fooV.Start envDeny)
    ∧ (fooD.Status envDeny).msg = "" := by
  have h := action_message_policy fooV fooD [] "" envDeny
  exact ⟨h.2.2.1, (h.2.2.2.2.2.2.2.2.2.2 rfl).2.1⟩

/-- A pattern is a prefix of itself followed by anything. -/
theorem chStartsWith_append (pat B : List Char) : chStartsWith pat (pat ++ B) = true := by
  induction pat with
  | nil => rfl
  | cons p ps ih => simp [chStartsWith, ih]

/-- Cancelling a common prefix of pattern and text. -/
theorem chStartsWith_cancel (x y t : List Char) :
    chStartsWith (x ++ y) (x ++ t) = chStartsWith y t := by
  induction x with
  | nil => rfl
  | cons a as ih => simp [chStartsWith, ih]

/-- A pattern equal to three concatenated parts is a prefix of those
three parts followed by anything. -/
theorem chStartsWith_concat3 (p x y z t : List Char) (hp : p = x ++ (y ++ z)) :
    chStartsWith p (x ++ (y ++ (z ++ t))) = true := by
  subst hp
  rw [chStartsWith_cancel, chStartsWith_cancel]
  exact chStartsWith_append _ _

/-- A match at the head of the text is a match. -/
theorem chMatch_here (pat t : List Char) (h : chStartsWith pat t = true) :
    chMatch pat t = true := by
  cases t with
  | nil => exact h
  | cons c cs => simp [chMatch, h]

/-- A match in the right part of a concatenation is a match. -/
theorem chMatch_append_right (pat s t : List Char) (h : chMatch pat t = true) :
    chMatch pat (s ++ t) = true := by
  induction s with
  | nil => exact h
  | cons a as ih =>
    cases ht : as ++ t with
    | nil => simp [chMatch, ht] at ih ⊢; simp [ih]
    | cons b bs => simp [chMatch, ht] at ih ⊢; simp [ih]

/-- The fixture rendering of the init-script template, unfolded to the
substituted chunk concatenation (definitionally equal to `renderTpl`). -/
theorem renderTpl_fixture_eq :
    renderTpl systemVConfig "foo" "8080" "1.0" "Foo Service" "/usr/bin/foo" "--x"
    = ("#! /bin/sh\n#\n#       /etc/rc.d/init.d/" : String).data
      ++ (("foo" : String).data
      ++ (("\n#\n#       Starts " : String).data
      ++ (("foo" : String).data
      ++ ((" as a daemon\n#\n# chkconfig: 2345 87 17\n# description: Starts and stops a single " : String).data
      ++ (("foo" : String).data
      ++ ((" instance on this system\n\n### BEGIN INIT INFO\n# Provides: " : String).data
      ++ (("foo" : String).data
      ++ ((" \n# Required-Start: $network $named\n# Required-Stop: $network $named\n# Default-Start: 2 3 4 5\n# Default-Stop: 0 1 6\n# Short-Description: This service manages the " : String).data
      ++ (("Foo Service" : String).data
      ++ ((".\n# Description: " : String).data
      ++ (("Foo Service" : String).data
      ++ (("\n### END INIT INFO\n\n#\n# Source function library.\n#\nif [ -f /etc/rc.d/init.d/functions ]; then\n    . /etc/rc.d/init.d/functions\nfi\n\nexec=\"" : String).data
      ++ (("/usr/bin/foo" : String).data
      ++ (("\"\nservname=\"" : String).data
      ++ (("Foo Service" : String).data
      ++ (("\"\nport=\"" : String).data
      ++ (("8080" : String).data
      ++ (("\"\nversion=\"" : String).data
      ++ (("1.0" : String).data
      ++ (("\"\n\nproc=\"" : String).data
      ++ (("foo" : String).data
      ++ (("\"\npidfile=\"/var/run/$proc.pid\"\nlockfile=\"/var/lock/subsys/$proc\"\nstdoutlog=\"/var/log/$proc.log\"\nstderrlog=\"/var/log/$proc.err\"\n\nprivilegeCheck() \x7b\n    testFile=\"/var/tmp/$\x7bproc\x7d_testPriv.t\"\n    touch $testFile\n    chown root:root $testFile 2>/dev/null\n    if [ $? != 0 ]; then\n        rm -f $testFile\n        echo \"Error:  You must have root user privileges. Possibly using \x27sudo\x27 command should help\"\n        exit 1\n    fi\n    rm -f $testFile\n    if [ $? != 0 ]; then\n        echo \"Error:  You must have root user privileges. Possibly using \x27sudo\x27 command should help\"\n        exit 1\n    fi\n\x7d\n\n# root or sudo command\nprivilegeCheck\n\n[ -d $(dirname $lockfile) ] || mkdir -p $(dirname $lockfile)\n\n[ -e /etc/sysconfig/$proc ] && . /etc/sysconfig/$proc\n\nstart() \x7b\n    [ -x $exec ] || exit 5\n\n    if [ -f $pidfile ]; then\n        if ! [ -d \"/proc/$(cat $pidfile)\" ]; then\n            rm $pidfile\n            if [ -f $lockfile ]; then\n                rm $lockfile\n            fi\n        fi\n    fi\n\n    if ! [ -f $pidfile ]; then\n        printf \"Starting $servname:\\t\"\n        if [ $? != 0 ]; then\n            echo -n \"Starting $servname:     \"\n        fi\n        echo \"$(date)\" >> $stdoutlog\n        $exec " : String).data
      ++ (("--x" : String).data
      ++ ((" >> $stdoutlog 2>> $stderrlog &\n        echo $! > $pidfile\n        touch $lockfile\n        success 2>/dev/null\n        if [ $? != 0 ]; then\n            echo \"[ OK ]\"\n        else\n            echo\n        fi\n    else\n        # failure\n        echo\n        printf \"$pidfile still exists...\\n\"\n        if [ $? != 0 ]; then\n            echo \"$pidfile still exists...\"\n        fi\n        exit 7\n    fi\n\x7d\n\nstop() \x7b\n    printf \"Stopping $servname:\\t\"\n    if [ $? != 0 ]; then\n        echo -n \"Stopping $servname:     \"\n    fi\n    kill -9 $(cat $pidfile) && rm -f $pidfile\n    retval=$?\n    [ $retval -eq 0 ] && rm -f $lockfile\n    if [ $? != 0 ]; then\n        failure 2>/dev/null\n        if [ $? != 0 ]; then\n            echo \"[ FAILED ]\"\n        else\n            echo\n        fi\n    else\n        success 2>/dev/null\n        if [ $? != 0 ]; then\n            echo \"[ OK ]\"\n        else\n            echo\n        fi\n    fi\n    return $retval\n\x7d\n\nclear() \x7b\n    rm -f $pidfile\n    rm -f $lockfile\n\x7d\n\nrestart() \x7b\n    stop >/dev/null 2>/dev/null\n    start\n\x7d\n\nrh_status() \x7b\n        pidCmd=$(lsof -i$\x7bport\x7d | awk \x27\x7bprint $2;\x7d\x27 | sed -n 2p)\n        if [ ! -f \"$pidfile\" ] && [ -z \"$pidCmd\" ]; then\n            echo \"$servname is stopped\";\n            return 1;\n        fi\n        pid=$(cat $pidfile);\n        if [ \"$pidCmd\" != \"$pid\" ]; then\n            if [ ! -z \"$pid\" ]; then\n                kill -9 $pid\n            fi\n            if [ ! -z \"$pidCmd\" ]; then\n                echo \"$pidCmd\" > \"$pidfile\";\n                touch $lockfile\n                echo \"$servname is running [pid  $(cat $pidfile)]\";\n                return 0;\n            fi\n            clear\n            echo \"$servname is stopped\";\n            return 1;\n        fi\n        echo \"$servname is running [pid  $pid]\";\n        return 0;\n\x7d\n\nrh_status_q() \x7b\n    rh_status >/dev/null 2>&1\n\x7d\n\n" : String).data
      ++ (systemVCaseBlock.data
      ++ (("\nexit $?\n" : String).data
      ++ ([]))))))))))))))))))))))))))) := rfl

set_option maxRecDepth 40000 in
/-- Claim C9: rendering the init-script template with the descriptor
name=foo, port=8080, version=1.0, description=Foo Service,
path=/usr/bin/foo, args=--x yields a script that contains
`exec="/usr/bin/foo"` and `port="8080"` and contains the template's
case statement, whose named sub-commands (its named-case-arm-shaped
lines) are exactly start, stop, restart, status, version, description
and execpath. -/
theorem systemV_template_render_fixture :
    chMatch "exec=\"/usr/bin/foo\"".data
        (renderTpl systemVConfig "foo" "8080" "1.0" "Foo Service" "/usr/bin/foo" "--x") = true
    ∧ chMatch "port=\"8080\"".data
        (renderTpl systemVConfig "foo" "8080" "1.0" "Foo Service" "/usr/bin/foo" "--x") = true
    ∧ chMatch systemVCaseBlock.data
        (renderTpl systemVConfig "foo" "8080" "1.0" "Foo Service" "/usr/bin/foo" "--x") = true
    ∧ caseLabels systemVCaseBlock.data
        = ["start", "stop", "restart", "status", "version", "description", "execpath"] := by
  refine ⟨?_, ?_, ?_, ?_⟩
  · rw [renderTpl_fixture_eq]
    rw [show ("\n### END INIT INFO\n\n#\n# Source function library.\n#\nif [ -f /etc/rc.d/init.d/functions ]; then\n    . /etc/rc.d/init.d/functions\nfi\n\nexec=\"" : String).data
        = ("\n### END INIT INFO\n\n#\n# Source function library.\n#\nif [ -f /etc/rc.d/init.d/functions ]; then\n    . /etc/rc.d/init.d/functions\nfi\n\n" : String).data
          ++ ("exec=\"" : String).data from by decide,
      show ("\"\nservname=\"" : String).data
        = ("\"" : String).data ++ ("\nservname=\"" : String).data from by decide]
    simp only [List.append_assoc]
    iterate 13 apply chMatch_append_right
    exact chMatch_here _ _ (chStartsWith_concat3 _ _ _ _ _ (by decide))
  · rw [renderTpl_fixture_eq]
    rw [show ("\"\nport=\"" : String).data
        = ("\"\n" : String).data ++ ("port=\"" : String).data from by decide,
      show ("\"\nversion=\"" : String).data
        = ("\"" : String).data ++ ("\nversion=\"" : String).data from by decide]
    simp only [List.append_assoc]
    iterate 17 apply chMatch_append_right
    exact chMatch_here _ _ (chStartsWith_concat3 _ _ _ _ _ (by decide))
  · rw [renderTpl_fixture_eq]
    iterate 25 apply chMatch_append_right
    exact chMatch_here _ _ (chStartsWith_append _ _)
  · decide
